import Mathlib

/-!
Verification development for the data-anomaly-detector repository.

The Lean definitions below are shallow embeddings of the Python source:

* `src/past_low_anomalies.py` — date parsing, prior-year matching and the
  year-over-year anomaly analysis (`parse_date`, `find_prior_year_date`,
  `analyze_csv`);
* `src/query_loader.py` — query-configuration validation and defaults
  (`load_queries`);
* `src/html_report.py` — severity bucketing of rendered anomalies;
* `src/db_query.py` — connection/query error surfacing and the incremental
  CSV update (`EZLinksRoundsDB.connect`, `query_rounds_data`, `update_csv`);
* `src/tests/test_volume_executor.py` together with spec §4.2 — the volume
  executor, whose implementation is not part of the repository snapshot.

Dates are modelled as proleptic-Gregorian calendar dates, exactly the model
`datetime.date` uses: `toOrd` is `datetime.toordinal` (day 1 = 0001-01-01)
and `pyWeekday` is `datetime.weekday` (Monday = 0).
-/

/-- Calendar leap-year rule, as used by Python's `datetime`. -/
def isLeapYear (y : Nat) : Bool :=
  (y % 4 == 0 && y % 100 != 0) || (y % 400 == 0)

/-- Number of days in month `m` of year `y` (`calendar.monthrange` rule). -/
def daysInMonth (y m : Nat) : Nat :=
  if m == 2 then (if isLeapYear y then 29 else 28)
  else if m == 4 || m == 6 || m == 9 || m == 11 then 30
  else 31

/-- Cumulative number of days before month `m` in a non-leap year. -/
def daysBeforeMonth (m : Nat) : Nat :=
  if m == 1 then 0 else if m == 2 then 31 else if m == 3 then 59
  else if m == 4 then 90 else if m == 5 then 120 else if m == 6 then 151
  else if m == 7 then 181 else if m == 8 then 212 else if m == 9 then 243
  else if m == 10 then 273 else if m == 11 then 304 else 334

/-- A calendar date, the embedding of a Python `datetime` date. -/
structure SimpleDate where
  y : Nat
  m : Nat
  d : Nat
deriving DecidableEq, Repr

/-- Whether `(y, m, d)` is accepted by the `datetime` constructor
(`MINYEAR = 1`, `MAXYEAR = 9999`; day bounded by the month length). -/
def validDate (y m d : Nat) : Bool :=
  1 ≤ y && y ≤ 9999 && 1 ≤ m && m ≤ 12 && 1 ≤ d && d ≤ daysInMonth y m

/-- `datetime.toordinal` as a natural number: days since 0000-12-31,
so that 0001-01-01 is day 1. -/
def toOrdNat (dt : SimpleDate) : Nat :=
  let py := dt.y - 1
  365 * py + py / 4 - py / 100 + py / 400 + daysBeforeMonth dt.m +
    (if 2 < dt.m && isLeapYear dt.y then 1 else 0) + dt.d

/-- `datetime.toordinal`, as an integer so that day offsets never truncate. -/
def toOrd (dt : SimpleDate) : Int :=
  (toOrdNat dt : Int)

/-- `datetime.weekday` of an ordinal day: Monday = 0 … Sunday = 6. -/
def pyWeekday (o : Int) : Int :=
  (o + 6) % 7

/-- `strftime('%A')`: the weekday name for a `pyWeekday` index. -/
def pyDayName (w : Int) : String :=
  if w = 0 then "Monday" else if w = 1 then "Tuesday"
  else if w = 2 then "Wednesday" else if w = 3 then "Thursday"
  else if w = 4 then "Friday" else if w = 5 then "Saturday" else "Sunday"

/-- The digit character for `n < 10`. -/
def digitChar (n : Nat) : Char :=
  Char.ofNat (48 + n)

/-- Two-digit zero-padded rendering (`%02d`) of `n < 100`. -/
def pad2 (n : Nat) : List Char :=
  [digitChar (n / 10), digitChar (n % 10)]

/-- Four-digit zero-padded rendering (`%04d`) of `n < 10000`. -/
def pad4 (n : Nat) : List Char :=
  [digitChar (n / 1000), digitChar (n / 100 % 10), digitChar (n / 10 % 10),
   digitChar (n % 10)]

/-- `strftime('%Y%m%d')`: the normalized `YYYYMMDD` token of a date. -/
def fmtYmd (dt : SimpleDate) : String :=
  String.mk (pad4 dt.y ++ pad2 dt.m ++ pad2 dt.d)

/-- The day offsets `range(-3, 4)` searched by `find_prior_year_date`. -/
def yoyOffsets : List Int :=
  [-3, -2, -1, 0, 1, 2, 3]

/-- `find_prior_year_date` from `src/past_low_anomalies.py` (lines 39–73).
`present` is the key-membership test of the `data_by_date` dictionary, on
ordinal days.  The exact prior-year date is tried first (the
`target_date.replace(year=prior_year)` call raises `ValueError` exactly when
the month/day pair is invalid in the prior year, which the source catches);
then the offsets −3 … 3 are tried in order, each candidate being the
replaced date shifted by the offset, accepted when it is present and shares
the target's weekday. -/
def find_prior_year_date (target : SimpleDate) (present : Int → Bool) :
    Option Int :=
  let py := target.y - 1
  let w := pyWeekday (toOrd target)
  let tryExact : Option Int :=
    if validDate py target.m target.d then
      let cand := toOrd ⟨py, target.m, target.d⟩
      if present cand && pyWeekday cand == w then some cand else none
    else none
  match tryExact with
  | some c => some c
  | none =>
      yoyOffsets.findSome? (fun off =>
        if validDate py target.m target.d then
          let cand := toOrd ⟨py, target.m, target.d⟩ + off
          if present cand && pyWeekday cand == w then some cand else none
        else none)

/-- One parsed CSV row of the analyzed series: the `entry` dictionary built
in `analyze_csv` (date object and integer count; the derived `date_str` and
`day_name` fields are recomputed where needed). -/
structure Entry where
  date : SimpleDate
  count : Int
deriving DecidableEq, Repr

/-- One anomaly dictionary produced by `analyze_csv`.  `prior_year_date` is
kept as an ordinal day (`none` standing for the source's `'N/A'`). -/
structure Anomaly where
  dateOrd : Int
  date : SimpleDate
  date_str : String
  count : Int
  day_name : String
  query_name : String
  query_description : String
  prior_year_date : Option Int
  prior_year_count : Int
  yoy_change : Int
  yoy_pct : ℚ
  reason : String
deriving DecidableEq, Repr

/-- The `data_by_date` dictionary of `analyze_csv`, as a lookup from ordinal
day to count.  Python dict insertion lets a later row with the same date
overwrite an earlier one, hence the reversed search. -/
def mkByDate (data : List Entry) : Int → Option Int :=
  fun o => (data.reverse.find? (fun e => toOrd e.date == o)).map (fun e => e.count)

/-- Default value of `analyze_csv`'s `threshold_z` parameter (deprecated in
the source, kept for signature fidelity). -/
def analyzeDefaultThresholdZ : ℚ := -5/2

/-- Default value of `analyze_csv`'s `threshold_min` parameter. -/
def analyzeDefaultThresholdMin : Int := 5000

/-- Default value of `analyze_csv`'s `yoy_threshold_pct` parameter. -/
def analyzeDefaultYoyThresholdPct : ℚ := -50

/-- The body of `analyze_csv`'s per-entry loop
(`src/past_low_anomalies.py` lines 138–194): skip future dates and dates
before the minimum; flag sub-floor counts unconditionally with reason
`"Below minimum threshold"`; otherwise look for the prior-year match, skip
when absent or when the prior count is zero, and flag with reason
`"Year-over-year decrease"` when the percentage drop reaches the
threshold. -/
def processEntry (qn qd : String) (byDate : Int → Option Int)
    (today minD : Int) (thrMin : Int) (yoyThr : ℚ) (e : Entry) :
    Option Anomaly :=
  let o := toOrd e.date
  if today ≤ o then none
  else if o < minD then none
  else
    let c := e.count
    if c < thrMin then
      let pd := find_prior_year_date e.date (fun x => (byDate x).isSome)
      let pc : Int := match pd with
        | some p => (byDate p).getD 0
        | none => 0
      some { dateOrd := o, date := e.date, date_str := fmtYmd e.date,
             count := c, day_name := pyDayName (pyWeekday o),
             query_name := qn, query_description := qd,
             prior_year_date := pd, prior_year_count := pc,
             yoy_change := if pd.isSome then c - pc else 0,
             yoy_pct :=
               if pd.isSome && 0 < pc then
                 (((c : ℚ) - (pc : ℚ)) / (pc : ℚ)) * 100
               else 0,
             reason := "Below minimum threshold" }
    else
      match find_prior_year_date e.date (fun x => (byDate x).isSome) with
      | none => none
      | some p =>
          let pc : Int := (byDate p).getD 0
          if pc = 0 then none
          else
            let yoyPct : ℚ := (((c : ℚ) - (pc : ℚ)) / (pc : ℚ)) * 100
            if yoyPct ≤ yoyThr then
              some { dateOrd := o, date := e.date, date_str := fmtYmd e.date,
                     count := c, day_name := pyDayName (pyWeekday o),
                     query_name := qn, query_description := qd,
                     prior_year_date := some p, prior_year_count := pc,
                     yoy_change := c - pc, yoy_pct := yoyPct,
                     reason := "Year-over-year decrease" }
            else none

/-- `analyze_csv` from `src/past_low_anomalies.py`, after the CSV has been
read into `data` (file access and row parsing are the concern of
`parse_date`, embedded separately): every entry yields at most one anomaly,
and the result is sorted ascending by date. -/
def analyze_csv (qn qd : String) (data : List Entry)
    (today minD : Int) (thrMin : Int) (yoyThr : ℚ) : List Anomaly :=
  let byDate := mkByDate data
  (data.filterMap (processEntry qn qd byDate today minD thrMin yoyThr)).mergeSort
    (fun a b => decide (a.dateOrd ≤ b.dateOrd))

/-- Division as Python performs it: raises `ZeroDivisionError` on a zero
divisor, otherwise exact rational division. -/
def qdiv (a b : ℚ) : Except String ℚ :=
  if b = 0 then Except.error "ZeroDivisionError" else Except.ok (a / b)

/-- `processEntry` with every division routed through `qdiv`, so that a
division by zero would surface as an `Except.error` instead of being
absorbed by total rational division. -/
def processEntryE (qn qd : String) (byDate : Int → Option Int)
    (today minD : Int) (thrMin : Int) (yoyThr : ℚ) (e : Entry) :
    Except String (Option Anomaly) :=
  let o := toOrd e.date
  if today ≤ o then Except.ok none
  else if o < minD then Except.ok none
  else
    let c := e.count
    if c < thrMin then
      let pd := find_prior_year_date e.date (fun x => (byDate x).isSome)
      let pc : Int := match pd with
        | some p => (byDate p).getD 0
        | none => 0
      (if pd.isSome && 0 < pc then
          (qdiv ((c : ℚ) - (pc : ℚ)) (pc : ℚ)).map (fun q => q * 100)
        else Except.ok 0).map (fun yoyPct =>
        some { dateOrd := o, date := e.date, date_str := fmtYmd e.date,
               count := c, day_name := pyDayName (pyWeekday o),
               query_name := qn, query_description := qd,
               prior_year_date := pd, prior_year_count := pc,
               yoy_change := if pd.isSome then c - pc else 0,
               yoy_pct := yoyPct,
               reason := "Below minimum threshold" })
    else
      match find_prior_year_date e.date (fun x => (byDate x).isSome) with
      | none => Except.ok none
      | some p =>
          let pc : Int := (byDate p).getD 0
          if pc = 0 then Except.ok none
          else
            (qdiv ((c : ℚ) - (pc : ℚ)) (pc : ℚ)).map (fun q =>
              let yoyPct := q * 100
              if yoyPct ≤ yoyThr then
                some { dateOrd := o, date := e.date, date_str := fmtYmd e.date,
                       count := c, day_name := pyDayName (pyWeekday o),
                       query_name := qn, query_description := qd,
                       prior_year_date := some p, prior_year_count := pc,
                       yoy_change := c - pc, yoy_pct := yoyPct,
                       reason := "Year-over-year decrease" }
              else none)

/-- Sequential fail-fast traversal, the shape of a Python `for` loop whose
body may raise: the first exception aborts the whole loop. -/
def exceptMap {α β : Type} (f : α → Except String β) : List α → Except String (List β)
  | [] => Except.ok []
  | a :: rest =>
      match f a with
      | Except.error e => Except.error e
      | Except.ok b =>
          match exceptMap f rest with
          | Except.error e => Except.error e
          | Except.ok bs => Except.ok (b :: bs)

/-- `analyze_csv` with checked division, propagating a would-be
`ZeroDivisionError` from any entry. -/
def analyze_csvE (qn qd : String) (data : List Entry)
    (today minD : Int) (thrMin : Int) (yoyThr : ℚ) :
    Except String (List Anomaly) :=
  let byDate := mkByDate data
  match exceptMap (processEntryE qn qd byDate today minD thrMin yoyThr) data with
  | Except.error e => Except.error e
  | Except.ok l =>
      Except.ok ((l.filterMap id).mergeSort (fun a b => decide (a.dateOrd ≤ b.dateOrd)))

/-- ASCII digit test, the `\d` class of `_strptime`'s compiled patterns. -/
def isDigitCh (c : Char) : Bool :=
  48 ≤ c.toNat && c.toNat ≤ 57

/-- Numeric value of an ASCII digit character. -/
def digitVal (c : Char) : Nat :=
  c.toNat - 48

/-- The `%Y` directive of `strptime`: exactly four digits
(CPython pattern `\d\d\d\d`). -/
def matchY : List Char → Option (Nat × List Char)
  | c1 :: c2 :: c3 :: c4 :: rest =>
      if isDigitCh c1 && isDigitCh c2 && isDigitCh c3 && isDigitCh c4 then
        some (((digitVal c1 * 10 + digitVal c2) * 10 + digitVal c3) * 10 +
          digitVal c4, rest)
      else none
  | _ => none

/-- First alternative of `%m` (`1[0-2]`). -/
def mAlt1 : List Char → Option (Nat × List Char)
  | c1 :: c2 :: rest =>
      if c1.toNat == 49 && 48 ≤ c2.toNat && c2.toNat ≤ 50 then
        some (10 + digitVal c2, rest)
      else none
  | _ => none

/-- Second alternative of `%m` (`0[1-9]`). -/
def mAlt2 : List Char → Option (Nat × List Char)
  | c1 :: c2 :: rest =>
      if c1.toNat == 48 && 49 ≤ c2.toNat && c2.toNat ≤ 57 then
        some (digitVal c2, rest)
      else none
  | _ => none

/-- Third alternative of `%m` (`[1-9]`). -/
def mAlt3 : List Char → Option (Nat × List Char)
  | c1 :: rest =>
      if 49 ≤ c1.toNat && c1.toNat ≤ 57 then some (digitVal c1, rest) else none
  | _ => none

/-- The `%d` directive (`3[01]|[12]\d|0[1-9]|[1-9]`), alternatives in
pattern order. -/
def matchDay (s : List Char) : Option (Nat × List Char) :=
  (match s with
   | c1 :: c2 :: rest =>
       if c1.toNat == 51 && 48 ≤ c2.toNat && c2.toNat ≤ 49 then
         some (30 + digitVal c2, rest)
       else none
   | _ => none) <|>
  (match s with
   | c1 :: c2 :: rest =>
       if (c1.toNat == 49 || c1.toNat == 50) && isDigitCh c2 then
         some (digitVal c1 * 10 + digitVal c2, rest)
       else none
   | _ => none) <|>
  (match s with
   | c1 :: c2 :: rest =>
       if c1.toNat == 48 && 49 ≤ c2.toNat && c2.toNat ≤ 57 then
         some (digitVal c2, rest)
       else none
   | _ => none) <|>
  (match s with
   | c1 :: rest =>
       if 49 ≤ c1.toNat && c1.toNat ≤ 57 then some (digitVal c1, rest)
       else none
   | _ => none)

/-- A literal character of the format string. -/
def lit (c : Char) : List Char → Option (List Char)
  | x :: rest => if x = c then some rest else none
  | _ => none

/-- `%m%d` with regex backtracking: each month alternative is tried in
order, and must be followed by a day match. -/
def matchMonthDay (s : List Char) : Option (Nat × Nat × List Char) :=
  ((mAlt1 s).bind fun p => (matchDay p.2).map fun q => (p.1, q.1, q.2)) <|>
  ((mAlt2 s).bind fun p => (matchDay p.2).map fun q => (p.1, q.1, q.2)) <|>
  ((mAlt3 s).bind fun p => (matchDay p.2).map fun q => (p.1, q.1, q.2))

/-- `%m-%d` with regex backtracking: each month alternative must be
followed by the literal dash and then a day match. -/
def matchMonthDashDay (s : List Char) : Option (Nat × Nat × List Char) :=
  ((mAlt1 s).bind fun p => (lit '-' p.2).bind fun r =>
    (matchDay r).map fun q => (p.1, q.1, q.2)) <|>
  ((mAlt2 s).bind fun p => (lit '-' p.2).bind fun r =>
    (matchDay r).map fun q => (p.1, q.1, q.2)) <|>
  ((mAlt3 s).bind fun p => (lit '-' p.2).bind fun r =>
    (matchDay r).map fun q => (p.1, q.1, q.2))

/-- `datetime.strptime(s, '%Y%m%d')` as an `Option` (a `none` stands for
the `ValueError` the source catches): the pattern must match, the whole
string must be consumed ("unconverted data remains" otherwise), and the
`datetime` constructor must accept the fields. -/
def strptimeYmd (s : String) : Option SimpleDate :=
  match matchY s.data with
  | none => none
  | some (y, r) =>
      match matchMonthDay r with
      | none => none
      | some (m, d, rest) =>
          if rest.isEmpty && validDate y m d then some ⟨y, m, d⟩ else none

/-- `datetime.strptime(s, '%Y-%m-%d')` as an `Option`. -/
def strptimeDashed (s : String) : Option SimpleDate :=
  match matchY s.data with
  | none => none
  | some (y, r) =>
      match lit '-' r with
      | none => none
      | some r1 =>
          match matchMonthDashDay r1 with
          | none => none
          | some (m, d, rest) =>
              if rest.isEmpty && validDate y m d then some ⟨y, m, d⟩ else none

/-- `parse_date` from `src/past_low_anomalies.py` (lines 16–31): try the
`%Y%m%d` format, fall back to `%Y-%m-%d`, and raise (here: `none`) when
both fail. -/
def parse_date (s : String) : Option SimpleDate :=
  strptimeYmd s <|> strptimeDashed s

/-- `strftime('%Y-%m-%d')`-style dashed rendering of a date, used to state
which strings the strict `YYYY-MM-DD` token format contains. -/
def fmtDashed (dt : SimpleDate) : String :=
  String.mk (pad4 dt.y ++ '-' :: pad2 dt.m ++ '-' :: pad2 dt.d)

/-- Modelled from the spec's words: the strict `YYYYMMDD` token shape —
exactly eight digits. -/
def isYmdTokenShape (s : String) : Bool :=
  s.data.length == 8 && s.data.all isDigitCh

/-- Modelled from the spec's words: the strict `YYYY-MM-DD` token shape —
four digits, a dash, two digits, a dash, two digits. -/
def isDashedTokenShape (s : String) : Bool :=
  match s.data with
  | [a, b, c, d, h1, e, f, h2, g, i] =>
      isDigitCh a && isDigitCh b && isDigitCh c && isDigitCh d &&
      h1 == '-' && isDigitCh e && isDigitCh f && h2 == '-' &&
      isDigitCh g && isDigitCh i
  | _ => false

/-- A query configuration as read from `queries.json`: every field the
loader looks at, optional when the JSON may omit it. -/
structure RawQuery where
  name : Option String
  description : Option String
  csv_file : Option String
  date_column : Option String
  count_column : Option String
  base_query : Option String
  filtered_query : Option String
  max_date_query : Option String
  order_by : Option String
  anomaly_threshold_z : Option ℚ
  anomaly_threshold_min : Option Int
deriving DecidableEq, Repr

/-- A validated query configuration with defaults filled in
(`src/query_loader.py` lines 58–70). -/
structure ValidatedQuery where
  name : String
  description : String
  csv_file : String
  date_column : String
  count_column : String
  base_query : Option String
  filtered_query : Option String
  max_date_query : Option String
  order_by : Option String
  anomaly_threshold_z : ℚ
  anomaly_threshold_min : Int
deriving DecidableEq, Repr

/-- Per-query validation from `load_queries`: the four required fields are
checked in order, then defaults are filled for the optional ones. -/
def validateQuery (i : Nat) (q : RawQuery) : Except String ValidatedQuery :=
  match q.name with
  | none => Except.error ("Query #" ++ toString i ++ " is missing required field: name")
  | some nm =>
      match q.csv_file with
      | none => Except.error ("Query #" ++ toString i ++ " is missing required field: csv_file")
      | some cf =>
          match q.date_column with
          | none => Except.error ("Query #" ++ toString i ++ " is missing required field: date_column")
          | some dc =>
              match q.count_column with
              | none => Except.error ("Query #" ++ toString i ++ " is missing required field: count_column")
              | some cc =>
                  Except.ok
                    { name := nm, description := q.description.getD nm,
                      csv_file := cf, date_column := dc, count_column := cc,
                      base_query := q.base_query,
                      filtered_query := q.filtered_query,
                      max_date_query := q.max_date_query,
                      order_by := q.order_by,
                      anomaly_threshold_z := q.anomaly_threshold_z.getD (-2.5),
                      anomaly_threshold_min := q.anomaly_threshold_min.getD 5000 }

/-- The `for i, query in enumerate(queries)` loop of `load_queries`:
sequential validation, the first failure raising. -/
def validateQueries (i : Nat) : List RawQuery → Except String (List ValidatedQuery)
  | [] => Except.ok []
  | q :: rest =>
      match validateQuery i q with
      | Except.error e => Except.error e
      | Except.ok v =>
          match validateQueries (i + 1) rest with
          | Except.error e => Except.error e
          | Except.ok vs => Except.ok (v :: vs)

/-- `load_queries` from `src/query_loader.py`, after the JSON has been read
into a list (file lookup and JSON decoding are I/O concerns outside the
embedding): the list must be non-empty and every query must validate. -/
def load_queries (qs : List RawQuery) : Except String (List ValidatedQuery) :=
  if qs.isEmpty then Except.error "queries must be a non-empty array"
  else validateQueries 0 qs

/-- The severity bucket assigned to a rendered anomaly by
`generate_html_report` (`src/html_report.py` lines 355–363). -/
def severityClass (pct_diff : ℚ) : String :=
  if pct_diff < -95 then "severity-high"
  else if pct_diff < -85 then "severity-medium"
  else "severity-low"

/-- The per-query severe count of `generate_html_report` (line 313). -/
def severeCount (ps : List ℚ) : Nat :=
  ps.countP (fun p => decide (p < -95))

/-- The per-query moderate count of `generate_html_report` (line 314). -/
def moderateCount (ps : List ℚ) : Nat :=
  ps.countP (fun p => decide (-95 ≤ p ∧ p < -85))

/-- The per-query mild count of `generate_html_report` (line 315). -/
def mildCount (ps : List ℚ) : Nat :=
  ps.length - severeCount ps - moderateCount ps

/-- The observable way a Python call ends: a normal return, or an uncaught
exception propagating to the caller. -/
inductive PyOutcome (α : Type) where
  | ok (a : α)
  | raised (msg : String)
deriving DecidableEq, Repr

/-- Connection settings of `EZLinksRoundsDB` (`src/db_query.py`). -/
structure EZLinksRoundsDB where
  server : String
  database : String
  username : String
  password : String
  use_windows_auth : Bool
deriving DecidableEq, Repr

/-- The ODBC connection string built by `connect` (lines 36–52). -/
def buildConnStr (db : EZLinksRoundsDB) : String :=
  if db.use_windows_auth then
    "DRIVER=\x7bODBC Driver 18 for SQL Server\x7d;SERVER=" ++ db.server ++
    ";DATABASE=" ++ db.database ++
    ";Trusted_Connection=yes;TrustServerCertificate=yes;"
  else
    "DRIVER=\x7bODBC Driver 18 for SQL Server\x7d;SERVER=" ++ db.server ++
    ";DATABASE=" ++ db.database ++ ";UID=" ++ db.username ++
    ";PWD=" ++ db.password ++ ";TrustServerCertificate=yes;"

/-- `EZLinksRoundsDB.connect` (`src/db_query.py` lines 34–60).  `driver`
stands for `pyodbc.connect`, succeeding with a live connection or failing
with a `pyodbc.Error` message.  The source catches the error, prints, and
returns `False`; the result carries the return value together with the new
`self.connection` attribute. -/
def EZLinksRoundsDB.connect (db : EZLinksRoundsDB)
    (driver : String → Except String Unit) : PyOutcome (Bool × Option Unit) :=
  match driver (buildConnStr db) with
  | Except.ok c => PyOutcome.ok (true, some c)
  | Except.error _ => PyOutcome.ok (false, none)

/-- One row of the rounds query result, after the source's `str()`/`int()`
conversions (identities on the already-typed driver values). -/
structure DbRow where
  playdatekey : String
  count : Int
deriving DecidableEq, Repr

/-- The WHERE clauses built from the optional date filters (lines 93–97). -/
def whereClauses (dateCol : String) (startDate endDate : Option String) :
    List String :=
  (match startDate with
   | some s => [dateCol ++ " >= \x27" ++ s ++ "\x27"]
   | none => []) ++
  (match endDate with
   | some e => [dateCol ++ " <= \x27" ++ e ++ "\x27"]
   | none => [])

/-- The default-path SQL text of `query_rounds_data` (lines 118–128); the
config-template substitution branches are not exercised by any claim and
are left out of the embedding. -/
def buildRoundsQuery (table dateCol countCol : String)
    (startDate endDate : Option String) : String :=
  let base := "SELECT " ++ dateCol ++ ", " ++ countCol ++ " FROM " ++ table
  let wcs := whereClauses dateCol startDate endDate
  let q := if wcs.isEmpty then base
           else base ++ " WHERE " ++ String.intercalate " AND " wcs
  q ++ " ORDER BY " ++ dateCol

/-- `query_rounds_data` (`src/db_query.py` lines 68–148).  `conn` is the
current `self.connection`; when absent, `connect` is retried and a `False`
return yields `[]`.  `exec` stands for cursor execution of the built query;
a `pyodbc.Error` there is caught, printed, and `[]` is returned — never
re-raised. -/
def query_rounds_data (conn : Option Unit) (db : EZLinksRoundsDB)
    (driver : String → Except String Unit)
    (exec : String → Except String (List DbRow))
    (table dateCol countCol : String) (startDate endDate : Option String) :
    PyOutcome (List DbRow) :=
  match conn, EZLinksRoundsDB.connect db driver with
  | none, PyOutcome.ok (false, _) => PyOutcome.ok []
  | _, _ =>
      match exec (buildRoundsQuery table dateCol countCol startDate endDate) with
      | Except.ok rows => PyOutcome.ok rows
      | Except.error _ => PyOutcome.ok []

/-- Python truthiness of the optional strings `update_csv` branches on
(`None` and the empty string are falsy). -/
def pyTruthy : Option String → Bool
  | none => false
  | some s => !(s == "")

/-- The three ways `update_csv` can change the CSV file. -/
inductive CsvUpdate where
  | appended (rows : List DbRow)
  | created (rows : List DbRow)
  | noNewData
deriving DecidableEq, Repr

/-- `update_csv` (`src/db_query.py` lines 208–289), with the database
abstracted as `queryFn start end` (what `self.query_rounds_data` returns
for those filters).  The last CSV row's `playdatekey` is the incremental
start date unless a forced start date is given; in incremental mode the
first returned row is dropped when it repeats the start date; empty data
leaves the file untouched, and the rows are appended when the CSV already
had a latest date and no start date was forced, written fresh otherwise. -/
def update_csv (csvRows : List DbRow) (force_start_date end_date : Option String)
    (queryFn : Option String → Option String → List DbRow) : CsvUpdate :=
  let latest : Option String := csvRows.getLast?.map (fun r => r.playdatekey)
  let start : Option String :=
    if pyTruthy force_start_date then force_start_date
    else if pyTruthy latest then latest
    else none
  let data : List DbRow :=
    if pyTruthy start then
      let d0 := queryFn start end_date
      if !(pyTruthy force_start_date) &&
          d0.head?.map (fun r => r.playdatekey) == start then
        d0.tail
      else d0
    else queryFn none end_date
  if data.isEmpty then CsvUpdate.noNewData
  else if pyTruthy latest && !(pyTruthy force_start_date) then
    CsvUpdate.appended data
  else CsvUpdate.created data

/-- A Python value appearing in a uniform result row. -/
inductive PyVal where
  | vint (n : Int)
  | vstr (s : String)
deriving DecidableEq, Repr

/-- A uniform result row: an ordered mapping from column name to value. -/
abbrev VRow := List (String × PyVal)

/-- Column lookup in a uniform row. -/
def rowLookup (row : VRow) (k : String) : Option PyVal :=
  (row.find? (fun kv => kv.1 == k)).map (fun kv => kv.2)

/-- The first numeric column of a row, in column order. -/
def firstNumeric (row : VRow) : Option Int :=
  row.findSome? (fun kv => match kv.2 with
    | PyVal.vint n => some n
    | PyVal.vstr _ => none)

/-- A numeric value, when the optional lookup found one. -/
def asInt : Option PyVal → Option Int
  | some (PyVal.vint n) => some n
  | _ => none

/-- The volume-executor parameters read from a Test's `parameters` mapping
(spec §4.2): nullable minimum threshold, empty-table alerting (absent means
`False`), optional explicit count column. -/
structure VolumeParams where
  anomaly_threshold_min : Option Int
  alert_on_empty : Bool
  count_column : Option String
deriving DecidableEq, Repr

/-- The structured outcome of a volume-test execution, flattening the
`summary`/`actual` payloads the tests inspect. -/
structure VolumeResult where
  status : String
  summary_count : Option Int
  summary_threshold_min : Option Int
  summary_is_anomaly : Option Bool
  summary_reason : Option String
  summary_error : Option String
  actual_count : Option Int
  rows_processed : Option Nat
  error_message : Option String
deriving DecidableEq, Repr

/-- Modelled from the spec: `VolumeTestExecutor.execute` (spec §4.2), whose
implementation file (`workers/executors/volume_test.py`) is not part of the
repository snapshot — only its tests under
`src/tests/test_volume_executor.py` are.  The algorithm follows §4.2 steps
1–5 with the connector query outcome supplied as `qres` (an exception while
connecting/querying becomes outcome `error` carrying the message).  One
point where §4.2 and the repository's own tests disagree is resolved in
favour of the tests: `test_execute_volume_test_handles_no_results` (lines
109–124) pins a zero-row query result to status `"failed"` with
`"Query returned no results"` stored under the summary's `error` key,
where the spec text instead says outcome `error`. -/
def volumeExecute (params : VolumeParams) (qres : Except String (List VRow)) :
    VolumeResult :=
  match qres with
  | Except.error msg =>
      { status := "error", summary_count := none, summary_threshold_min := none,
        summary_is_anomaly := none, summary_reason := none, summary_error := none,
        actual_count := none, rows_processed := none, error_message := some msg }
  | Except.ok [] =>
      { status := "failed", summary_count := none,
        summary_threshold_min := params.anomaly_threshold_min,
        summary_is_anomaly := none, summary_reason := none,
        summary_error := some "Query returned no results",
        actual_count := none, rows_processed := some 0, error_message := none }
  | Except.ok (row :: rest) =>
      let cnt : Option Int :=
        match params.count_column with
        | some cc => asInt (rowLookup row cc)
        | none =>
            match asInt (rowLookup row "count") with
            | some n => some n
            | none => firstNumeric row
      match cnt with
      | none =>
          { status := "error", summary_count := none,
            summary_threshold_min := none, summary_is_anomaly := none,
            summary_reason := none, summary_error := none, actual_count := none,
            rows_processed := none,
            error_message := some "No numeric count column found in result" }
      | some c =>
          let rp : Nat := rest.length + 1
          if c = 0 then
            if params.alert_on_empty then
              { status := "failed", summary_count := some c,
                summary_threshold_min := params.anomaly_threshold_min,
                summary_is_anomaly := some true,
                summary_reason := some "Table is empty", summary_error := none,
                actual_count := some c, rows_processed := some rp,
                error_message := none }
            else
              { status := "passed", summary_count := some c,
                summary_threshold_min := params.anomaly_threshold_min,
                summary_is_anomaly := some false, summary_reason := none,
                summary_error := none, actual_count := some c,
                rows_processed := some rp, error_message := none }
          else
            match params.anomaly_threshold_min with
            | some t =>
                if c < t then
                  { status := "failed", summary_count := some c,
                    summary_threshold_min := some t,
                    summary_is_anomaly := some true,
                    summary_reason := some ("Count " ++ toString c ++
                      " is below minimum threshold " ++ toString t),
                    summary_error := none, actual_count := some c,
                    rows_processed := some rp, error_message := none }
                else
                  { status := "passed", summary_count := some c,
                    summary_threshold_min := some t,
                    summary_is_anomaly := some false, summary_reason := none,
                    summary_error := none, actual_count := some c,
                    rows_processed := some rp, error_message := none }
            | none =>
                { status := "passed", summary_count := some c,
                  summary_threshold_min := none,
                  summary_is_anomaly := some false, summary_reason := none,
                  summary_error := none, actual_count := some c,
                  rows_processed := some rp, error_message := none }

-- cross-checks of the parser against CPython strptime behaviour
example : parse_date "20240101" = some ⟨2024, 1, 1⟩ := by decide
example : parse_date "2024-01-01" = some ⟨2024, 1, 1⟩ := by decide
example : parse_date "2024-1-1" = some ⟨2024, 1, 1⟩ := by decide
example : parse_date "202411" = some ⟨2024, 1, 1⟩ := by decide
example : parse_date "2024111" = some ⟨2024, 11, 1⟩ := by decide
example : parse_date "20240931" = none := by decide
example : parse_date "2024010100" = none := by decide
example : parse_date "garbage" = none := by decide
example : parse_date "20240229" = some ⟨2024, 2, 29⟩ := by decide
example : parse_date "20230229" = none := by decide
example : parse_date "00000101" = none := by decide
example : toOrdNat ⟨1, 1, 1⟩ = 1 := by decide
example : toOrdNat ⟨2024, 1, 1⟩ = 738886 := by decide
example : pyWeekday (toOrd ⟨2024, 1, 1⟩) = 0 := by decide
example : pyWeekday (toOrd ⟨2025, 1, 15⟩) = 2 := by decide
example : pyWeekday (toOrd ⟨2024, 2, 29⟩) = 3 := by decide
example : pyWeekday (toOrd ⟨2026, 2, 2⟩) = 0 := by decide
example : fmtYmd ⟨2024, 1, 5⟩ = "20240105" := by decide
example :
    find_prior_year_date ⟨2025, 1, 15⟩
      (fun o => o == toOrd ⟨2024, 1, 17⟩) = some (toOrd ⟨2024, 1, 17⟩) := by
  decide
example :
    find_prior_year_date ⟨2024, 2, 29⟩ (fun _ => true) = none := by decide

-- cross-checks of the executor model against src/tests/test_volume_executor.py
example :
    (volumeExecute ⟨some 100, true, none⟩
      (Except.ok [[("count", PyVal.vint 500)]])).status = "passed" := by decide
example :
    (volumeExecute ⟨some 100, true, none⟩
      (Except.ok [[("count", PyVal.vint 50)]])).status = "failed" := by decide
example :
    (volumeExecute ⟨some 100, true, none⟩
      (Except.ok [[("count", PyVal.vint 0)]])).summary_reason =
      some "Table is empty" := by decide
example :
    (volumeExecute ⟨none, false, none⟩
      (Except.ok [[("count", PyVal.vint 0)]])).status = "passed" := by decide
example :
    (volumeExecute ⟨some 100, false, none⟩
      (Except.ok [[("total", PyVal.vint 500)]])).actual_count = some 500 := by
  decide
example :
    (volumeExecute ⟨some 100, false, some "custom_count"⟩
      (Except.ok [[("custom_count", PyVal.vint 500)]])).status = "passed" := by
  decide
example :
    (volumeExecute ⟨none, false, none⟩
      (Except.error "Database connection failed")).status = "error" := by decide

/-- PyOutcome discriminator: did the call end in an uncaught exception? -/
def PyOutcome.isRaised {α : Type} : PyOutcome α → Bool
  | PyOutcome.raised _ => true
  | PyOutcome.ok _ => false

/-- Claim C1, counterexample: with the test's configuration (empty
`parameters`), a zero-row query result yields outcome `failed` — not
`error` — with "Query returned no results" stored under the summary's
`error` key, exactly as `test_execute_volume_test_handles_no_results`
asserts. -/
theorem C1_counterexample :
    (volumeExecute ⟨none, false, none⟩ (Except.ok [])).status = "failed" ∧
    (volumeExecute ⟨none, false, none⟩ (Except.ok [])).status ≠ "error" ∧
    (volumeExecute ⟨none, false, none⟩ (Except.ok [])).summary_error =
      some "Query returned no results" := by
  refine ⟨rfl, ?_, rfl⟩
  decide

/-- Claim C1 (amended): for the volume executor, a query result with zero
rows yields outcome `failed` (for every parameter configuration) with the
message "Query returned no results" recorded under the summary's `error`
key, as the repository's volume-executor test requires. -/
theorem C1_zero_rows_failed (params : VolumeParams) :
    (volumeExecute params (Except.ok [])).status = "failed" ∧
    (volumeExecute params (Except.ok [])).summary_error =
      some "Query returned no results" :=
  ⟨rfl, rfl⟩

/-- Claim C4, counterexample: with a failing driver and a failing cursor,
`connect` returns normally with `False` (no `ConnectionError` is raised)
and `query_rounds_data` returns normally with the empty row list (no
`QueryError` is raised). -/
theorem C4_counterexample :
    EZLinksRoundsDB.connect ⟨"s", "d", "u", "p", true⟩
      (fun _ => Except.error "unreachable") = PyOutcome.ok (false, none) ∧
    query_rounds_data (some ()) ⟨"s", "d", "u", "p", true⟩
      (fun _ => Except.error "unreachable") (fun _ => Except.error "bad query")
      "t" "playdatekey" "count" none none = PyOutcome.ok [] := by
  exact ⟨rfl, rfl⟩

/-- Claim C4 (amended): a failure to establish the database connection
surfaces as `connect` returning `False` with no connection stored, and a
failure while executing a query surfaces as `query_rounds_data` returning
an empty row list; neither call raises. -/
theorem C4_error_surfacing (db : EZLinksRoundsDB) (conn : Option Unit)
    (driver : String → Except String Unit)
    (exec : String → Except String (List DbRow))
    (table dc cc : String) (sd ed : Option String) (e1 e2 : String)
    (hdrv : driver (buildConnStr db) = Except.error e1)
    (hexec : exec (buildRoundsQuery table dc cc sd ed) = Except.error e2) :
    EZLinksRoundsDB.connect db driver = PyOutcome.ok (false, none) ∧
    query_rounds_data conn db driver exec table dc cc sd ed =
      PyOutcome.ok [] := by
  have hc : EZLinksRoundsDB.connect db driver = PyOutcome.ok (false, none) := by
    unfold EZLinksRoundsDB.connect
    rw [hdrv]
  refine ⟨hc, ?_⟩
  cases conn with
  | none => unfold query_rounds_data; rw [hc]
  | some c => unfold query_rounds_data; rw [hc, hexec]

/-- Claim C4 witness: the amended theorem applied to a concrete database
and concretely failing driver and cursor. -/
theorem C4_error_surfacing_witness :
    EZLinksRoundsDB.connect ⟨"srv", "db", "u", "p", false⟩
      (fun _ => Except.error "auth failure") = PyOutcome.ok (false, none) ∧
    query_rounds_data none ⟨"srv", "db", "u", "p", false⟩
      (fun _ => Except.error "auth failure") (fun _ => Except.error "syntax")
      "rounds" "playdatekey" "count" (some "20240101") none =
      PyOutcome.ok [] :=
  C4_error_surfacing ⟨"srv", "db", "u", "p", false⟩ none
    (fun _ => Except.error "auth failure") (fun _ => Except.error "syntax")
    "rounds" "playdatekey" "count" (some "20240101") none
    "auth failure" "syntax" rfl rfl

/-- Claim C7: the severity bucket of a rendered anomaly is `high` exactly
when `pct_diff < -95`, `medium` exactly when `-95 ≤ pct_diff < -85`, and
`low` otherwise (that is, exactly when `-85 ≤ pct_diff`). -/
theorem C7_severity_buckets (p : ℚ) :
    (severityClass p = "severity-high" ↔ p < -95) ∧
    (severityClass p = "severity-medium" ↔ (-95 ≤ p ∧ p < -85)) ∧
    (severityClass p = "severity-low" ↔ -85 ≤ p) := by
  unfold severityClass
  by_cases h1 : p < -95
  · rw [if_pos h1]
    refine ⟨⟨fun _ => h1, fun _ => rfl⟩, ?_, ?_⟩
    · exact ⟨fun h => absurd h (by decide), fun hh => absurd hh.1 (by linarith)⟩
    · exact ⟨fun h => absurd h (by decide), fun hh => absurd h1 (by linarith)⟩
  · rw [if_neg h1]
    by_cases h2 : p < -85
    · rw [if_pos h2]
      refine ⟨?_, ⟨fun _ => ⟨by linarith, h2⟩, fun _ => rfl⟩, ?_⟩
      · exact ⟨fun h => absurd h (by decide), fun hh => absurd hh h1⟩
      · exact ⟨fun h => absurd h (by decide), fun hh => absurd h2 (by linarith)⟩
    · rw [if_neg h2]
      refine ⟨?_, ?_, ⟨fun _ => by linarith, fun _ => rfl⟩⟩
      · exact ⟨fun h => absurd h (by decide), fun hh => absurd hh h1⟩
      · exact ⟨fun h => absurd h (by decide), fun hh => absurd hh.2 h2⟩

/-- Index-wise content of a successful `validateQueries` run: the output at
position `i` is the validation of the input at position `i`. -/
theorem validateQueries_ok_get (l : List RawQuery) :
    ∀ (start : Nat) (out : List ValidatedQuery),
      validateQueries start l = Except.ok out →
      ∀ (i : Nat) (q : RawQuery) (v : ValidatedQuery),
        l[i]? = some q → out[i]? = some v →
        validateQuery (start + i) q = Except.ok v := by
  induction l with
  | nil => intro start out _ i q v hq _; simp at hq
  | cons a rest ih =>
      intro start out hrun i q v hq hv
      unfold validateQueries at hrun
      cases ha : validateQuery start a with
      | error e => rw [ha] at hrun; exact absurd hrun (by simp)
      | ok w =>
          rw [ha] at hrun
          cases hrest : validateQueries (start + 1) rest with
          | error e => rw [hrest] at hrun; exact absurd hrun (by simp)
          | ok ws =>
              rw [hrest] at hrun
              have hout : out = w :: ws := by
                cases hrun; rfl
              subst hout
              cases i with
              | zero =>
                  simp at hq hv
                  subst hq; subst hv
                  simpa using ha
              | succ j =>
                  simp at hq hv
                  have := ih (start + 1) ws hrest j q v hq hv
                  have harith : start + 1 + j = start + (j + 1) := by omega
                  rwa [harith] at this

/-- Claim C6: a query configuration that omits its thresholds gets
`anomaly_threshold_z = -2.5` and `anomaly_threshold_min = 5000` from
`load_queries`, and `analyze_csv`'s own defaults agree: `threshold_z =
-2.5`, `threshold_min = 5000`, `yoy_threshold_pct = -50`. -/
theorem C6_threshold_defaults (qs : List RawQuery) (vs : List ValidatedQuery)
    (i : Nat) (q : RawQuery) (v : ValidatedQuery)
    (hl : load_queries qs = Except.ok vs)
    (hq : qs[i]? = some q) (hv : vs[i]? = some v)
    (hz : q.anomaly_threshold_z = none) (hm : q.anomaly_threshold_min = none) :
    v.anomaly_threshold_z = -2.5 ∧ v.anomaly_threshold_min = 5000 ∧
    analyzeDefaultThresholdZ = -2.5 ∧ analyzeDefaultThresholdMin = 5000 ∧
    analyzeDefaultYoyThresholdPct = -50 := by
  have hval : validateQuery (0 + i) q = Except.ok v := by
    refine validateQueries_ok_get qs 0 vs ?_ i q v hq hv
    unfold load_queries at hl
    by_cases he : qs.isEmpty
    · rw [if_pos he] at hl; exact absurd hl (by simp)
    · rw [if_neg he] at hl; exact hl
  unfold validateQuery at hval
  cases hn : q.name with
  | none => rw [hn] at hval; exact absurd hval (by simp)
  | some nm =>
      rw [hn] at hval
      cases hc : q.csv_file with
      | none => rw [hc] at hval; exact absurd hval (by simp)
      | some cf =>
          rw [hc] at hval
          cases hd : q.date_column with
          | none => rw [hd] at hval; exact absurd hval (by simp)
          | some dc =>
              rw [hd] at hval
              cases hcc : q.count_column with
              | none => rw [hcc] at hval; exact absurd hval (by simp)
              | some cc =>
                  rw [hcc, hz, hm] at hval
                  have hveq := hval
                  rw [Except.ok.injEq] at hveq
                  refine ⟨?_, ?_, by norm_num [analyzeDefaultThresholdZ], rfl,
                    rfl⟩
                  · rw [← hveq]; rfl
                  · rw [← hveq]; rfl

/-- Claim C6 witness: a single-query configuration omitting both
thresholds, validated through `load_queries`, receives exactly the default
thresholds. -/
theorem C6_threshold_defaults_witness :
    (⟨"q", "q", "data.csv", "playdatekey", "count", none, none, none, none,
      -2.5, 5000⟩ : ValidatedQuery).anomaly_threshold_z = -2.5 ∧
    (⟨"q", "q", "data.csv", "playdatekey", "count", none, none, none, none,
      -2.5, 5000⟩ : ValidatedQuery).anomaly_threshold_min = 5000 ∧
    analyzeDefaultThresholdZ = -2.5 ∧ analyzeDefaultThresholdMin = 5000 ∧
    analyzeDefaultYoyThresholdPct = -50 :=
  C6_threshold_defaults
    [⟨some "q", none, some "data.csv", some "playdatekey", some "count",
      none, none, none, none, none, none⟩]
    [⟨"q", "q", "data.csv", "playdatekey", "count", none, none, none, none,
      -2.5, 5000⟩] 0
    ⟨some "q", none, some "data.csv", some "playdatekey", some "count",
      none, none, none, none, none, none⟩
    ⟨"q", "q", "data.csv", "playdatekey", "count", none, none, none, none,
      -2.5, 5000⟩
    rfl rfl rfl rfl rfl

/-- The checked-division run of the per-entry loop body always succeeds,
returning exactly what the total-division version computes: every division
in the source is guarded (`prior_count > 0` in the sub-floor branch, the
`prior_count == 0` skip in the year-over-year branch). -/
theorem processEntryE_ok (qn qd : String) (byDate : Int → Option Int)
    (today minD : Int) (thrMin : Int) (yoyThr : ℚ) (e : Entry) :
    processEntryE qn qd byDate today minD thrMin yoyThr e =
      Except.ok (processEntry qn qd byDate today minD thrMin yoyThr e) := by
  unfold processEntryE processEntry
  by_cases h1 : today ≤ toOrd e.date
  · simp [h1]
  · simp only [if_neg h1]
    by_cases h2 : toOrd e.date < minD
    · simp [h2]
    · simp only [if_neg h2]
      by_cases h3 : e.count < thrMin
      · simp only [if_pos h3]
        cases hp : find_prior_year_date e.date (fun x => (byDate x).isSome) with
        | none => simp [hp, qdiv, Except.map]
        | some p =>
            simp only [hp]
            by_cases hpc : (0 : Int) < (byDate p).getD 0
            · have hne : (((byDate p).getD 0 : Int) : ℚ) ≠ 0 := by
                exact_mod_cast (by omega : ((byDate p).getD 0 : Int) ≠ 0)
              simp [hpc, qdiv, hne, Except.map]
            · simp [hpc, qdiv, Except.map]
      · simp only [if_neg h3]
        cases hp : find_prior_year_date e.date (fun x => (byDate x).isSome) with
        | none => simp [hp]
        | some p =>
            simp only [hp]
            by_cases hpc : ((byDate p).getD 0 : Int) = 0
            · simp [hpc]
            · have hne : (((byDate p).getD 0 : Int) : ℚ) ≠ 0 := by
                exact_mod_cast hpc
              simp [hpc, qdiv, hne, Except.map]

/-- A fail-fast traversal of a function that never fails succeeds with the
pointwise results. -/
theorem exceptMap_ok_of_forall {α β : Type} (f : α → Except String β)
    (g : α → β) (h : ∀ a, f a = Except.ok (g a)) :
    ∀ l : List α, exceptMap f l = Except.ok (l.map g) := by
  intro l
  induction l with
  | nil => rfl
  | cons a rest ih =>
      unfold exceptMap
      rw [h a, ih]
      simp

/-- Claim C9: `analyze_csv` never raises `ZeroDivisionError`: running the
analysis with every division checked succeeds on every input series and
returns exactly the anomalies of the total-division analysis. -/
theorem C9_no_zero_division (qn qd : String) (data : List Entry)
    (today minD : Int) (thrMin : Int) (yoyThr : ℚ) :
    analyze_csvE qn qd data today minD thrMin yoyThr =
      Except.ok (analyze_csv qn qd data today minD thrMin yoyThr) := by
  unfold analyze_csvE analyze_csv
  simp only []
  rw [exceptMap_ok_of_forall
    (processEntryE qn qd (mkByDate data) today minD thrMin yoyThr)
    (processEntry qn qd (mkByDate data) today minD thrMin yoyThr)
    (processEntryE_ok qn qd (mkByDate data) today minD thrMin yoyThr) data]
  simp [List.filterMap_map]

/-- February 29 of a leap year has no valid prior-year calendar date: the
previous year is never a leap year, so the `replace(year=prior_year)` call
fails the date-validity check. -/
theorem feb29_prior_invalid (y : Nat) (hy : isLeapYear y = true) :
    validDate (y - 1) 2 29 = false := by
  rcases Nat.eq_zero_or_pos y with h0 | hpos
  · subst h0; decide
  · have h4 : y % 4 = 0 := by
      simp [isLeapYear] at hy
      omega
    have hnl : isLeapYear (y - 1) = false := by
      simp [isLeapYear]
      omega
    simp [validDate, daysInMonth, hnl]

/-- `find_prior_year_date` on a February 29 observation returns `none`
whatever the history: every offset's candidate construction fails. -/
theorem feb29_no_prior (y : Nat) (hy : isLeapYear y = true)
    (present : Int → Bool) :
    find_prior_year_date ⟨y, 2, 29⟩ present = none := by
  have hvd := feb29_prior_invalid y hy
  unfold find_prior_year_date
  simp [hvd, yoyOffsets, List.findSome?]

/-- Claim C8: a February 29 observation has no prior-year match
(`find_prior_year_date` returns `none` for every history), and hence a
February 29 entry whose count is at or above the minimum threshold is never
flagged by the analysis loop. -/
theorem C8_feb29_never_flagged (y : Nat) (qn qd : String)
    (byDate : Int → Option Int) (present : Int → Bool)
    (today minD thrMin : Int) (yoyThr : ℚ) (e : Entry)
    (hy : isLeapYear y = true) (hdate : e.date = ⟨y, 2, 29⟩)
    (hcnt : thrMin ≤ e.count) :
    find_prior_year_date ⟨y, 2, 29⟩ present = none ∧
    processEntry qn qd byDate today minD thrMin yoyThr e = none := by
  refine ⟨feb29_no_prior y hy present, ?_⟩
  obtain ⟨d0, c0⟩ := e
  simp only at hdate hcnt
  subst hdate
  unfold processEntry
  by_cases h1 : today ≤ toOrd ⟨y, 2, 29⟩
  · simp [h1]
  · simp only [if_neg h1]
    by_cases h2 : toOrd (⟨y, 2, 29⟩ : SimpleDate) < minD
    · simp [h2]
    · simp only [if_neg h2]
      have h3 : ¬((⟨⟨y, 2, 29⟩, c0⟩ : Entry).count < thrMin) := by
        simp only
        omega
      simp only [if_neg h3]
      rw [feb29_no_prior y hy]

/-- Claim C8 witness: 2024-02-29 with a count above the floor and a history
containing every date is still unmatched and unflagged. -/
theorem C8_feb29_never_flagged_witness :
    find_prior_year_date ⟨2024, 2, 29⟩ (fun _ => true) = none ∧
    processEntry "q" "d" (fun _ => some 6000) (toOrd ⟨2026, 2, 2⟩)
      (toOrd ⟨2024, 1, 1⟩) 5000 (-50) ⟨⟨2024, 2, 29⟩, 6000⟩ = none :=
  C8_feb29_never_flagged 2024 "q" "d" (fun _ => some 6000) (fun _ => true)
    (toOrd ⟨2026, 2, 2⟩) (toOrd ⟨2024, 1, 1⟩) 5000 (-50)
    ⟨⟨2024, 2, 29⟩, 6000⟩ (by decide) rfl (by decide)

/-- A guarded search over candidates that all fail finds nothing. -/
theorem findSome?_if_all_none {pred : Int → Bool} :
    ∀ l : List Int, (∀ x ∈ l, pred x = false) →
      l.findSome? (fun x => if pred x then some x else none) = none := by
  intro l h
  induction l with
  | nil => rfl
  | cons a rest ih =>
      have ha : pred a = false := h a (by simp)
      rw [List.findSome?_cons]
      simp only [ha, if_false]
      exact ih (fun x hx => h x (by simp [hx]))

/-- A guarded search over candidates among which exactly `q` satisfies the
predicate finds `q`. -/
theorem findSome?_if_unique {pred : Int → Bool} {q : Int} :
    ∀ l : List Int, q ∈ l → pred q = true →
      (∀ x ∈ l, pred x = true → x = q) →
      l.findSome? (fun x => if pred x then some x else none) = some q := by
  intro l
  induction l with
  | nil => intro h _ _; simp at h
  | cons a rest ih =>
      intro hq hpq huni
      by_cases ha : pred a = true
      · have haq : a = q := huni a (by simp) ha
        subst haq
        rw [List.findSome?_cons]
        simp [ha]
      · have haf : pred a = false := by simpa using ha
        have hqr : q ∈ rest := by
          rcases List.mem_cons.mp hq with h | h
          · exact absurd (h ▸ hpq) (by simp [haf])
          · exact h
        rw [List.findSome?_cons]
        simp only [haf, if_false]
        exact ih hqr hpq (fun x hx hpx => huni x (by simp [hx]) hpx)

/-- Searching shifted offsets is searching the shifted candidates. -/
theorem findSome?_shift (p : Int) (f : Int → Option Int) :
    ∀ offs : List Int,
      offs.findSome? (fun off => f (p + off)) =
        (offs.map (fun off => p + off)).findSome? f := by
  intro offs
  induction offs with
  | nil => rfl
  | cons a rest ih =>
      rw [List.map_cons, List.findSome?_cons, List.findSome?_cons]
      cases h : f (p + a) with
      | none => simpa [h] using ih
      | some b => simp [h]

/-- `find_prior_year_date`, rewritten when the one-year-earlier calendar
date exists: try the exact prior date, then the shifted candidates. -/
theorem find_prior_year_date_eq (target : SimpleDate) (present : Int → Bool)
    (hval : validDate (target.y - 1) target.m target.d = true) :
    find_prior_year_date target present =
      (match (if present (toOrd ⟨target.y - 1, target.m, target.d⟩) &&
                (pyWeekday (toOrd ⟨target.y - 1, target.m, target.d⟩) ==
                  pyWeekday (toOrd target)) then
              some (toOrd ⟨target.y - 1, target.m, target.d⟩)
            else none) with
       | some c => some c
       | none =>
           yoyOffsets.findSome? (fun off =>
             if present (toOrd ⟨target.y - 1, target.m, target.d⟩ + off) &&
                 (pyWeekday (toOrd ⟨target.y - 1, target.m, target.d⟩ + off) ==
                   pyWeekday (toOrd target)) then
               some (toOrd ⟨target.y - 1, target.m, target.d⟩ + off)
             else none)) := by
  unfold find_prior_year_date
  simp only [hval, if_true]

/-- Claim C3: with the one-year-earlier calendar date valid, the matcher
(1) returns the exact prior-year date when it is present with the same
weekday; (2) returns the unique candidate within the ±3-day window that is
present and shares the observation's weekday, when there is exactly one;
(3) returns `none` when no present candidate in the window shares the
observation's weekday. -/
theorem C3_prior_year_matcher (target : SimpleDate) (present : Int → Bool)
    (hval : validDate (target.y - 1) target.m target.d = true) :
    (present (toOrd ⟨target.y - 1, target.m, target.d⟩) = true →
      pyWeekday (toOrd ⟨target.y - 1, target.m, target.d⟩) =
        pyWeekday (toOrd target) →
      find_prior_year_date target present =
        some (toOrd ⟨target.y - 1, target.m, target.d⟩)) ∧
    (∀ q : Int,
      q ∈ yoyOffsets.map (fun off => toOrd ⟨target.y - 1, target.m, target.d⟩ + off) →
      present q = true →
      pyWeekday q = pyWeekday (toOrd target) →
      (∀ x ∈ yoyOffsets.map (fun off => toOrd ⟨target.y - 1, target.m, target.d⟩ + off),
        present x = true → pyWeekday x = pyWeekday (toOrd target) → x = q) →
      find_prior_year_date target present = some q) ∧
    ((∀ x ∈ yoyOffsets.map (fun off => toOrd ⟨target.y - 1, target.m, target.d⟩ + off),
        present x = true → pyWeekday x ≠ pyWeekday (toOrd target)) →
      find_prior_year_date target present = none) := by
  rw [find_prior_year_date_eq target present hval]
  have hbeq : ∀ a b : Int, (a == b) = decide (a = b) := fun a b => rfl
  refine ⟨?_, ?_, ?_⟩
  · intro hpres hweek
    simp [hpres, hweek]
  · intro q hq hpres hweek huni
    by_cases hex : (present (toOrd ⟨target.y - 1, target.m, target.d⟩) &&
        (pyWeekday (toOrd ⟨target.y - 1, target.m, target.d⟩) ==
          pyWeekday (toOrd target))) = true
    · have hmem : toOrd ⟨target.y - 1, target.m, target.d⟩ ∈
          yoyOffsets.map (fun off => toOrd ⟨target.y - 1, target.m, target.d⟩ + off) := by
        refine List.mem_map.mpr ⟨0, by simp [yoyOffsets], by simp⟩
      have h12 : present (toOrd ⟨target.y - 1, target.m, target.d⟩) = true ∧
          pyWeekday (toOrd ⟨target.y - 1, target.m, target.d⟩) =
            pyWeekday (toOrd target) := by
        simpa using hex
      have hpq : toOrd ⟨target.y - 1, target.m, target.d⟩ = q :=
        huni _ hmem h12.1 h12.2
      simp [hex, hpq, hpres, hweek]
    · have hexf : (present (toOrd ⟨target.y - 1, target.m, target.d⟩) &&
          (pyWeekday (toOrd ⟨target.y - 1, target.m, target.d⟩) ==
            pyWeekday (toOrd target))) = false := by
        simpa using hex
      rw [hexf]
      show List.findSome? _ yoyOffsets = some q
      rw [findSome?_shift (toOrd ⟨target.y - 1, target.m, target.d⟩)
        (fun x => if present x && (pyWeekday x == pyWeekday (toOrd target)) then
          some x else none) yoyOffsets]
      refine findSome?_if_unique _ hq (by simp [hpres, hweek]) ?_
      intro x hx hpx
      have h12 : present x = true ∧ pyWeekday x = pyWeekday (toOrd target) := by
        simpa using hpx
      exact huni x hx h12.1 h12.2
  · intro hnone
    have hexf : (present (toOrd ⟨target.y - 1, target.m, target.d⟩) &&
        (pyWeekday (toOrd ⟨target.y - 1, target.m, target.d⟩) ==
          pyWeekday (toOrd target))) = false := by
      have hmem : toOrd ⟨target.y - 1, target.m, target.d⟩ ∈
          yoyOffsets.map (fun off => toOrd ⟨target.y - 1, target.m, target.d⟩ + off) := by
        refine List.mem_map.mpr ⟨0, by simp [yoyOffsets], by simp⟩
      by_cases hp : present (toOrd ⟨target.y - 1, target.m, target.d⟩) = true
      · have := hnone _ hmem hp
        simp [hp, this]
      · simp [Bool.eq_false_iff.mpr hp]
    rw [hexf]
    show List.findSome? _ yoyOffsets = none
    rw [findSome?_shift (toOrd ⟨target.y - 1, target.m, target.d⟩)
      (fun x => if present x && (pyWeekday x == pyWeekday (toOrd target)) then
        some x else none) yoyOffsets]
    refine findSome?_if_all_none _ ?_
    intro x hx
    by_cases hp : present x = true
    · have := hnone x hx hp
      simp [hp, this]
    · simp [Bool.eq_false_iff.mpr hp]

/-- Claim C3 witness: observation 2025-01-15 (a Wednesday) against a
history holding exactly 2024-01-17 — the date one year earlier plus two
days, also a Wednesday — instantiates the matcher characterization. -/
theorem C3_prior_year_matcher_witness :
    ((fun o => o == toOrd ⟨2024, 1, 17⟩) (toOrd ⟨2024, 1, 15⟩) = true →
      pyWeekday (toOrd ⟨2024, 1, 15⟩) = pyWeekday (toOrd ⟨2025, 1, 15⟩) →
      find_prior_year_date ⟨2025, 1, 15⟩ (fun o => o == toOrd ⟨2024, 1, 17⟩) =
        some (toOrd ⟨2024, 1, 15⟩)) ∧
    (∀ q : Int,
      q ∈ yoyOffsets.map (fun off => toOrd ⟨2024, 1, 15⟩ + off) →
      (fun o => o == toOrd ⟨2024, 1, 17⟩) q = true →
      pyWeekday q = pyWeekday (toOrd ⟨2025, 1, 15⟩) →
      (∀ x ∈ yoyOffsets.map (fun off => toOrd ⟨2024, 1, 15⟩ + off),
        (fun o => o == toOrd ⟨2024, 1, 17⟩) x = true →
        pyWeekday x = pyWeekday (toOrd ⟨2025, 1, 15⟩) → x = q) →
      find_prior_year_date ⟨2025, 1, 15⟩ (fun o => o == toOrd ⟨2024, 1, 17⟩) =
        some q) ∧
    ((∀ x ∈ yoyOffsets.map (fun off => toOrd ⟨2024, 1, 15⟩ + off),
        (fun o => o == toOrd ⟨2024, 1, 17⟩) x = true →
        pyWeekday x ≠ pyWeekday (toOrd ⟨2025, 1, 15⟩)) →
      find_prior_year_date ⟨2025, 1, 15⟩ (fun o => o == toOrd ⟨2024, 1, 17⟩) =
        none) :=
  C3_prior_year_matcher ⟨2025, 1, 15⟩ (fun o => o == toOrd ⟨2024, 1, 17⟩)
    (by decide)

/-- Every anomaly the per-entry loop emits for a series entry appears in
`analyze_csv`'s returned list (the final sort permutes but keeps them). -/
theorem processEntry_mem_analyze (qn qd : String) (data : List Entry)
    (today minD thrMin : Int) (yoyThr : ℚ) (e : Entry) (a : Anomaly)
    (hmem : e ∈ data)
    (hp : processEntry qn qd (mkByDate data) today minD thrMin yoyThr e = some a) :
    a ∈ analyze_csv qn qd data today minD thrMin yoyThr := by
  unfold analyze_csv
  simp only [List.mem_mergeSort]
  exact List.mem_filterMap.mpr ⟨e, hmem, hp⟩

/-- The analysis loop body on an in-range at-or-above-floor entry whose
prior-year match exists with a nonzero prior count: it reduces to the
year-over-year threshold test. -/
theorem processEntry_above_eq (qn qd : String) (byDate : Int → Option Int)
    (today minD thrMin : Int) (yoyThr : ℚ) (e : Entry) (p : Int)
    (hn1 : ¬(today ≤ toOrd e.date)) (hn2 : ¬(toOrd e.date < minD))
    (hn3 : ¬(e.count < thrMin))
    (hp : find_prior_year_date e.date (fun x => (byDate x).isSome) = some p)
    (hpc : ((byDate p).getD 0 : Int) ≠ 0) :
    processEntry qn qd byDate today minD thrMin yoyThr e =
      (if (((e.count : ℚ) - (((byDate p).getD 0 : Int) : ℚ)) /
          (((byDate p).getD 0 : Int) : ℚ)) * 100 ≤ yoyThr then
        some { dateOrd := toOrd e.date, date := e.date,
               date_str := fmtYmd e.date, count := e.count,
               day_name := pyDayName (pyWeekday (toOrd e.date)),
               query_name := qn, query_description := qd,
               prior_year_date := some p,
               prior_year_count := (byDate p).getD 0,
               yoy_change := e.count - (byDate p).getD 0,
               yoy_pct := (((e.count : ℚ) - (((byDate p).getD 0 : Int) : ℚ)) /
                 (((byDate p).getD 0 : Int) : ℚ)) * 100,
               reason := "Year-over-year decrease" }
      else none) := by
  unfold processEntry
  rw [if_neg hn1, if_neg hn2, if_neg hn3, hp]
  simp [hpc]

/-- The analysis loop body on an in-range at-or-above-floor entry whose
prior-year match exists but has prior count zero: skipped. -/
theorem processEntry_prior_zero (qn qd : String) (byDate : Int → Option Int)
    (today minD thrMin : Int) (yoyThr : ℚ) (e : Entry) (p : Int)
    (hn1 : ¬(today ≤ toOrd e.date)) (hn2 : ¬(toOrd e.date < minD))
    (hn3 : ¬(e.count < thrMin))
    (hp : find_prior_year_date e.date (fun x => (byDate x).isSome) = some p)
    (hpc : ((byDate p).getD 0 : Int) = 0) :
    processEntry qn qd byDate today minD thrMin yoyThr e = none := by
  unfold processEntry
  rw [if_neg hn1, if_neg hn2, if_neg hn3, hp]
  simp [hpc]

/-- Claim C2: for an in-range observation (on/after the minimum date,
strictly before the as-of date): a count below the floor is always flagged
with reason "Below minimum threshold"; a count at/above the floor is
flagged — with reason "Year-over-year decrease" — exactly when a prior-year
match exists whose relative change `(count − prior) / prior × 100` is at
most the (negative) YoY threshold; and with no match and a count at/above
the floor nothing is emitted.  Flagged anomalies appear in `analyze_csv`'s
output. -/
theorem C2_yoy_flagging (qn qd : String) (data : List Entry)
    (today minD thrMin : Int) (yoyThr : ℚ) (e : Entry)
    (hthr : yoyThr < 0) (hmem : e ∈ data)
    (hlo : minD ≤ toOrd e.date) (hhi : toOrd e.date < today) :
    (e.count < thrMin →
      ∃ a, processEntry qn qd (mkByDate data) today minD thrMin yoyThr e =
          some a ∧
        a.reason = "Below minimum threshold" ∧ a.date = e.date ∧
        a.count = e.count ∧
        a ∈ analyze_csv qn qd data today minD thrMin yoyThr) ∧
    (thrMin ≤ e.count →
      ((∃ a, processEntry qn qd (mkByDate data) today minD thrMin yoyThr e =
            some a ∧
          a.reason = "Year-over-year decrease" ∧ a.date = e.date ∧
          a.count = e.count ∧
          a ∈ analyze_csv qn qd data today minD thrMin yoyThr) ↔
        (∃ p, find_prior_year_date e.date
            (fun x => (mkByDate data x).isSome) = some p ∧
          (((e.count : ℚ) - (((mkByDate data p).getD 0 : Int) : ℚ)) /
              (((mkByDate data p).getD 0 : Int) : ℚ)) * 100 ≤ yoyThr))) ∧
    (thrMin ≤ e.count →
      find_prior_year_date e.date (fun x => (mkByDate data x).isSome) = none →
      processEntry qn qd (mkByDate data) today minD thrMin yoyThr e = none) := by
  have hn1 : ¬(today ≤ toOrd e.date) := not_le.mpr hhi
  have hn2 : ¬(toOrd e.date < minD) := not_lt.mpr hlo
  have hnone_eq : find_prior_year_date e.date
        (fun x => (mkByDate data x).isSome) = none →
      ¬(e.count < thrMin) →
      processEntry qn qd (mkByDate data) today minD thrMin yoyThr e = none := by
    intro hnone hn3
    unfold processEntry
    rw [if_neg hn1, if_neg hn2, if_neg hn3, hnone]
  refine ⟨?_, ?_, ?_⟩
  · intro h3
    have hsh : ∃ a,
        processEntry qn qd (mkByDate data) today minD thrMin yoyThr e =
          some a ∧
        a.reason = "Below minimum threshold" ∧ a.date = e.date ∧
        a.count = e.count := by
      unfold processEntry
      rw [if_neg hn1, if_neg hn2, if_pos h3]
      exact ⟨_, rfl, rfl, rfl, rfl⟩
    obtain ⟨a, hpe, hr, hd, hc⟩ := hsh
    exact ⟨a, hpe, hr, hd, hc,
      processEntry_mem_analyze qn qd data today minD thrMin yoyThr e a hmem hpe⟩
  · intro h4
    have hn3 : ¬(e.count < thrMin) := not_lt.mpr h4
    constructor
    · rintro ⟨a, hpe, hreason, -, -, -⟩
      cases hp : find_prior_year_date e.date
          (fun x => (mkByDate data x).isSome) with
      | none =>
          rw [hnone_eq hp hn3] at hpe
          exact absurd hpe (by simp)
      | some p =>
          by_cases hpc : ((mkByDate data p).getD 0 : Int) = 0
          · rw [processEntry_prior_zero qn qd (mkByDate data) today minD
              thrMin yoyThr e p hn1 hn2 hn3 hp hpc] at hpe
            exact absurd hpe (by simp)
          · rw [processEntry_above_eq qn qd (mkByDate data) today minD
              thrMin yoyThr e p hn1 hn2 hn3 hp hpc] at hpe
            by_cases hle : (((e.count : ℚ) -
                (((mkByDate data p).getD 0 : Int) : ℚ)) /
                (((mkByDate data p).getD 0 : Int) : ℚ)) * 100 ≤ yoyThr
            · exact ⟨p, rfl, hle⟩
            · rw [if_neg hle] at hpe
              exact absurd hpe (by simp)
    · rintro ⟨p, hp, hle⟩
      by_cases hpc : ((mkByDate data p).getD 0 : Int) = 0
      · exfalso
        rw [hpc] at hle
        simp at hle
        exact absurd (lt_of_lt_of_le hthr hle) (lt_irrefl yoyThr)
      · have hpe : processEntry qn qd (mkByDate data) today minD thrMin
            yoyThr e = some
            { dateOrd := toOrd e.date, date := e.date,
              date_str := fmtYmd e.date, count := e.count,
              day_name := pyDayName (pyWeekday (toOrd e.date)),
              query_name := qn, query_description := qd,
              prior_year_date := some p,
              prior_year_count := (mkByDate data p).getD 0,
              yoy_change := e.count - (mkByDate data p).getD 0,
              yoy_pct := (((e.count : ℚ) -
                (((mkByDate data p).getD 0 : Int) : ℚ)) /
                (((mkByDate data p).getD 0 : Int) : ℚ)) * 100,
              reason := "Year-over-year decrease" } := by
          rw [processEntry_above_eq qn qd (mkByDate data) today minD thrMin
            yoyThr e p hn1 hn2 hn3 hp hpc, if_pos hle]
        exact ⟨_, hpe, rfl, rfl, rfl,
          processEntry_mem_analyze qn qd data today minD thrMin yoyThr e _
            hmem hpe⟩
  · intro h4 hnone
    exact hnone_eq hnone (not_lt.mpr h4)

/-- Claim C2 witness: a single-entry series whose one observation
(2025-06-10, count 2000) is in range and below the default floor,
instantiating the flagging characterization at the default thresholds. -/
theorem C2_yoy_flagging_witness :
    ((⟨⟨2025, 6, 10⟩, 2000⟩ : Entry).count < 5000 →
      ∃ a, processEntry "q" "d" (mkByDate [⟨⟨2025, 6, 10⟩, 2000⟩])
          (toOrd ⟨2026, 2, 2⟩) (toOrd ⟨2025, 1, 1⟩) 5000 (-50)
          ⟨⟨2025, 6, 10⟩, 2000⟩ = some a ∧
        a.reason = "Below minimum threshold" ∧
        a.date = (⟨⟨2025, 6, 10⟩, 2000⟩ : Entry).date ∧
        a.count = (⟨⟨2025, 6, 10⟩, 2000⟩ : Entry).count ∧
        a ∈ analyze_csv "q" "d" [⟨⟨2025, 6, 10⟩, 2000⟩] (toOrd ⟨2026, 2, 2⟩)
          (toOrd ⟨2025, 1, 1⟩) 5000 (-50)) ∧
    (5000 ≤ (⟨⟨2025, 6, 10⟩, 2000⟩ : Entry).count →
      ((∃ a, processEntry "q" "d" (mkByDate [⟨⟨2025, 6, 10⟩, 2000⟩])
            (toOrd ⟨2026, 2, 2⟩) (toOrd ⟨2025, 1, 1⟩) 5000 (-50)
            ⟨⟨2025, 6, 10⟩, 2000⟩ = some a ∧
          a.reason = "Year-over-year decrease" ∧
          a.date = (⟨⟨2025, 6, 10⟩, 2000⟩ : Entry).date ∧
          a.count = (⟨⟨2025, 6, 10⟩, 2000⟩ : Entry).count ∧
          a ∈ analyze_csv "q" "d" [⟨⟨2025, 6, 10⟩, 2000⟩] (toOrd ⟨2026, 2, 2⟩)
            (toOrd ⟨2025, 1, 1⟩) 5000 (-50)) ↔
        (∃ p, find_prior_year_date (⟨⟨2025, 6, 10⟩, 2000⟩ : Entry).date
            (fun x => (mkByDate [⟨⟨2025, 6, 10⟩, 2000⟩] x).isSome) = some p ∧
          ((((⟨⟨2025, 6, 10⟩, 2000⟩ : Entry).count : ℚ) -
              (((mkByDate [⟨⟨2025, 6, 10⟩, 2000⟩] p).getD 0 : Int) : ℚ)) /
              (((mkByDate [⟨⟨2025, 6, 10⟩, 2000⟩] p).getD 0 : Int) : ℚ)) *
              100 ≤ -50))) ∧
    (5000 ≤ (⟨⟨2025, 6, 10⟩, 2000⟩ : Entry).count →
      find_prior_year_date (⟨⟨2025, 6, 10⟩, 2000⟩ : Entry).date
        (fun x => (mkByDate [⟨⟨2025, 6, 10⟩, 2000⟩] x).isSome) = none →
      processEntry "q" "d" (mkByDate [⟨⟨2025, 6, 10⟩, 2000⟩])
        (toOrd ⟨2026, 2, 2⟩) (toOrd ⟨2025, 1, 1⟩) 5000 (-50)
        ⟨⟨2025, 6, 10⟩, 2000⟩ = none) :=
  C2_yoy_flagging "q" "d" [⟨⟨2025, 6, 10⟩, 2000⟩] (toOrd ⟨2026, 2, 2⟩)
    (toOrd ⟨2025, 1, 1⟩) 5000 (-50) ⟨⟨2025, 6, 10⟩, 2000⟩ (by decide)
    (by decide) (by decide) (by decide)

/-- Claim C10: in incremental mode (no forced start date) with a non-empty
CSV ending at date `d`, `update_csv` queries the database from `d`, drops
the first returned row exactly when it repeats `d`, and — provided the
returned rows are ascending with dates at or after `d`, as the generated
`WHERE playdatekey >= d … ORDER BY playdatekey` query yields for a
date-keyed series — none of the rows it appends carries the date `d`. -/
theorem C10_incremental_no_duplicate (csvRows : List DbRow) (d : String)
    (end_date : Option String)
    (queryFn : Option String → Option String → List DbRow)
    (hlast : csvRows.getLast?.map (fun r => r.playdatekey) = some d)
    (hd : d ≠ "")
    (hge : ∀ r ∈ queryFn (some d) end_date, d.data ≤ r.playdatekey.data)
    (hsorted : (queryFn (some d) end_date).Pairwise
      (fun a b => a.playdatekey.data < b.playdatekey.data)) :
    update_csv csvRows none end_date queryFn =
      (if ((if (queryFn (some d) end_date).head?.map
              (fun r => r.playdatekey) == some d then
            (queryFn (some d) end_date).tail
          else queryFn (some d) end_date)).isEmpty then
        CsvUpdate.noNewData
      else
        CsvUpdate.appended
          (if (queryFn (some d) end_date).head?.map
              (fun r => r.playdatekey) == some d then
            (queryFn (some d) end_date).tail
          else queryFn (some d) end_date)) ∧
    ∀ r ∈ (if (queryFn (some d) end_date).head?.map
            (fun r => r.playdatekey) == some d then
          (queryFn (some d) end_date).tail
        else queryFn (some d) end_date),
      r.playdatekey ≠ d := by
  constructor
  · unfold update_csv
    rw [hlast]
    simp [pyTruthy, hd]
  · cases hq : queryFn (some d) end_date with
    | nil => simp
    | cons r0 rest =>
        rw [hq] at hge hsorted
        rw [List.pairwise_cons] at hsorted
        by_cases hhead : r0.playdatekey = d
        · have hcond : ((r0 :: rest).head?.map (fun r => r.playdatekey) ==
              some d) = true := by
            simp [hhead]
          rw [hcond]
          simp only [if_true, List.tail_cons]
          intro r hr heq
          have hlt : r0.playdatekey.data < r.playdatekey.data :=
            hsorted.1 r hr
          rw [hhead, heq] at hlt
          exact absurd hlt (lt_irrefl _)
        · have hcond : ((r0 :: rest).head?.map (fun r => r.playdatekey) ==
              some d) = false := by
            simp [hhead]
          rw [hcond]
          simp only [Bool.false_eq_true, if_false]
          intro r hr heq
          rcases List.mem_cons.mp hr with h | h
          · exact hhead (h ▸ heq)
          · have hlt : r0.playdatekey.data < r.playdatekey.data :=
              hsorted.1 r h
            have hge0 : d.data ≤ r0.playdatekey.data :=
              hge r0 (by simp)
            rw [heq] at hlt
            exact absurd (lt_of_le_of_lt hge0 hlt) (lt_irrefl _)

/-- Claim C10 witness: a CSV ending at 20240101 and a database returning
that date again plus 20240102 — the duplicate first row is dropped and only
20240102 is appended. -/
theorem C10_incremental_no_duplicate_witness :
    update_csv [⟨"20240101", 5⟩] none none
        (fun _ _ => [⟨"20240101", 5⟩, ⟨"20240102", 7⟩]) =
      CsvUpdate.appended [⟨"20240102", 7⟩] ∧
    ∀ r ∈ [(⟨"20240102", 7⟩ : DbRow)], r.playdatekey ≠ "20240101" :=
  C10_incremental_no_duplicate [⟨"20240101", 5⟩] "20240101" none
    (fun _ _ => [⟨"20240101", 5⟩, ⟨"20240102", 7⟩]) rfl (by decide)
    (by decide) (by decide)

/-- Code point of a digit character. -/
theorem toNat_digitChar (k : Nat) (hk : k < 10) :
    (digitChar k).toNat = 48 + k := by
  interval_cases k <;> decide

/-- Digit characters are digits. -/
theorem isDigitCh_digitChar (k : Nat) (hk : k < 10) :
    isDigitCh (digitChar k) = true := by
  interval_cases k <;> decide

/-- Digit characters decode to their value. -/
theorem digitVal_digitChar (k : Nat) (hk : k < 10) :
    digitVal (digitChar k) = k := by
  interval_cases k <;> decide

/-- `%Y` consumes exactly a zero-padded four-digit year. -/
theorem matchY_pad4 (y : Nat) (hy : y ≤ 9999) (rest : List Char) :
    matchY (pad4 y ++ rest) = some (y, rest) := by
  have h1 : y / 1000 < 10 := by omega
  have h2 : y / 100 % 10 < 10 := by omega
  have h3 : y / 10 % 10 < 10 := by omega
  have h4 : y % 10 < 10 := by omega
  simp only [pad4, List.cons_append, List.nil_append, matchY]
  rw [isDigitCh_digitChar _ h1, isDigitCh_digitChar _ h2,
    isDigitCh_digitChar _ h3, isDigitCh_digitChar _ h4]
  simp only [Bool.and_self, if_true]
  rw [digitVal_digitChar _ h1, digitVal_digitChar _ h2,
    digitVal_digitChar _ h3, digitVal_digitChar _ h4]
  simp only [Option.some.injEq, Prod.mk.injEq]
  exact ⟨by omega, trivial⟩

/-- Every month bounds to at most 31 days. -/
theorem daysInMonth_le (y m : Nat) : daysInMonth y m ≤ 31 := by
  unfold daysInMonth
  split
  · split <;> omega
  · split <;> omega

/-- `%m%d` consumes exactly a zero-padded month and day pair. -/
theorem matchMonthDay_pad (m d : Nat) (hm1 : 1 ≤ m) (hm2 : m ≤ 12)
    (hd1 : 1 ≤ d) (hd2 : d ≤ 31) :
    matchMonthDay (pad2 m ++ pad2 d) = some (m, d, []) := by
  interval_cases m <;> interval_cases d <;> decide

/-- `%m-%d` consumes exactly a zero-padded dashed month and day pair. -/
theorem matchMonthDashDay_pad (m d : Nat) (hm1 : 1 ≤ m) (hm2 : m ≤ 12)
    (hd1 : 1 ≤ d) (hd2 : d ≤ 31) :
    matchMonthDashDay (pad2 m ++ '-' :: pad2 d) = some (m, d, []) := by
  interval_cases m <;> interval_cases d <;> decide

/-- The character list underlying a constructed string. -/
theorem string_data_mk (l : List Char) : (String.mk l).data = l := rfl

/-- `strptime('%Y%m%d')` accepts every canonical `YYYYMMDD` rendering of a
valid date, recovering the date. -/
theorem strptimeYmd_fmt (y m d : Nat) (hv : validDate y m d = true) :
    strptimeYmd (fmtYmd ⟨y, m, d⟩) = some ⟨y, m, d⟩ := by
  have hb : ((((1 ≤ y ∧ y ≤ 9999) ∧ 1 ≤ m) ∧ m ≤ 12) ∧ 1 ≤ d) ∧
      d ≤ daysInMonth y m := by
    simpa [validDate] using hv
  obtain ⟨⟨⟨⟨⟨h1, h2⟩, h3⟩, h4⟩, h5⟩, h6⟩ := hb
  have hd31 : d ≤ 31 := le_trans h6 (daysInMonth_le y m)
  unfold strptimeYmd fmtYmd
  rw [string_data_mk, List.append_assoc, matchY_pad4 y h2 (pad2 m ++ pad2 d)]
  simp [matchMonthDay_pad m d h3 h4 h5 hd31, hv]

/-- `strptime('%Y-%m-%d')` accepts every canonical dashed rendering of a
valid date, recovering the date. -/
theorem strptimeDashed_fmt (y m d : Nat) (hv : validDate y m d = true) :
    strptimeDashed (fmtDashed ⟨y, m, d⟩) = some ⟨y, m, d⟩ := by
  have hb : ((((1 ≤ y ∧ y ≤ 9999) ∧ 1 ≤ m) ∧ m ≤ 12) ∧ 1 ≤ d) ∧
      d ≤ daysInMonth y m := by
    simpa [validDate] using hv
  obtain ⟨⟨⟨⟨⟨h1, h2⟩, h3⟩, h4⟩, h5⟩, h6⟩ := hb
  have hd31 : d ≤ 31 := le_trans h6 (daysInMonth_le y m)
  unfold strptimeDashed fmtDashed
  rw [string_data_mk, List.append_assoc, matchY_pad4 y h2 _]
  simp [List.cons_append, lit, matchMonthDashDay_pad m d h3 h4 h5 hd31, hv]

/-- The `%Y%m%d` format rejects dashed renderings: the month position holds
a dash, which no month alternative matches. -/
theorem strptimeYmd_fmtDashed_none (y m d : Nat) (h2 : y ≤ 9999) :
    strptimeYmd (fmtDashed ⟨y, m, d⟩) = none := by
  unfold strptimeYmd fmtDashed
  rw [string_data_mk, List.append_assoc, matchY_pad4 y h2 _]
  simp [List.cons_append, matchMonthDay, mAlt1, mAlt2, mAlt3, pad2]

/-- `parse_date` accepts every canonical `YYYYMMDD` token. -/
theorem parse_date_fmtYmd (y m d : Nat) (hv : validDate y m d = true) :
    parse_date (fmtYmd ⟨y, m, d⟩) = some ⟨y, m, d⟩ := by
  unfold parse_date
  rw [strptimeYmd_fmt y m d hv]
  rfl

/-- `parse_date` accepts every canonical `YYYY-MM-DD` token. -/
theorem parse_date_fmtDashed (y m d : Nat) (hv : validDate y m d = true) :
    parse_date (fmtDashed ⟨y, m, d⟩) = some ⟨y, m, d⟩ := by
  have h2 : y ≤ 9999 := by
    have := hv
    simp [validDate] at this
    omega
  unfold parse_date
  rw [strptimeYmd_fmtDashed_none y m d h2, strptimeDashed_fmt y m d hv]
  rfl

/-- Any date produced by the `%Y%m%d` branch passed the `datetime`
constructor check. -/
theorem strptimeYmd_valid (s : String) (dt : SimpleDate)
    (h : strptimeYmd s = some dt) : validDate dt.y dt.m dt.d = true := by
  unfold strptimeYmd at h
  cases hY : matchY s.data with
  | none => rw [hY] at h; exact absurd h (by simp)
  | some p =>
      obtain ⟨yy, r⟩ := p
      rw [hY] at h
      cases hMD : matchMonthDay r with
      | none => simp [hMD] at h
      | some q =>
          obtain ⟨mm, dd, rest⟩ := q
          simp only [hMD] at h
          split at h
          · next hcond =>
              have hvv : validDate yy mm dd = true := by
                have := hcond
                simp at this
                exact this.2
              have hdt : dt = ⟨yy, mm, dd⟩ := by
                cases h
                rfl
              subst hdt
              exact hvv
          · exact absurd h (by simp)

/-- Any date produced by the `%Y-%m-%d` branch passed the `datetime`
constructor check. -/
theorem strptimeDashed_valid (s : String) (dt : SimpleDate)
    (h : strptimeDashed s = some dt) : validDate dt.y dt.m dt.d = true := by
  unfold strptimeDashed at h
  cases hY : matchY s.data with
  | none => rw [hY] at h; exact absurd h (by simp)
  | some p =>
      obtain ⟨yy, r⟩ := p
      rw [hY] at h
      cases hL : lit '-' r with
      | none => simp [hL] at h
      | some r1 =>
          simp only [hL] at h
          cases hMD : matchMonthDashDay r1 with
          | none => simp [hMD] at h
          | some q =>
              obtain ⟨mm, dd, rest⟩ := q
              simp only [hMD] at h
              split at h
              · next hcond =>
                  have hvv : validDate yy mm dd = true := by
                    have := hcond
                    simp at this
                    exact this.2
                  have hdt : dt = ⟨yy, mm, dd⟩ := by
                    cases h
                    rfl
                  subst hdt
                  exact hvv
              · exact absurd h (by simp)

/-- Every `parse_date` result is a valid calendar date. -/
theorem parse_date_valid (s : String) (dt : SimpleDate)
    (h : parse_date s = some dt) : validDate dt.y dt.m dt.d = true := by
  unfold parse_date at h
  cases h1 : strptimeYmd s with
  | some dt1 =>
      rw [h1] at h
      have : dt1 = dt := by
        simpa using h
      exact this ▸ strptimeYmd_valid s dt1 h1
  | none =>
      rw [h1] at h
      simp only [Option.none_orElse] at h
      exact strptimeDashed_valid s dt h

/-- The `%Y%m%d` rendering of a bounded date is a strict eight-digit
token. -/
theorem fmtYmd_shape (y m d : Nat) (hy : y ≤ 9999) (hm : m ≤ 99)
    (hd : d ≤ 99) : isYmdTokenShape (fmtYmd ⟨y, m, d⟩) = true := by
  have h1 : y / 1000 < 10 := by omega
  have h2 : y / 100 % 10 < 10 := by omega
  have h3 : y / 10 % 10 < 10 := by omega
  have h4 : y % 10 < 10 := by omega
  have h5 : m / 10 < 10 := by omega
  have h6 : m % 10 < 10 := by omega
  have h7 : d / 10 < 10 := by omega
  have h8 : d % 10 < 10 := by omega
  unfold isYmdTokenShape fmtYmd
  rw [string_data_mk]
  simp [pad4, pad2, isDigitCh_digitChar _ h1, isDigitCh_digitChar _ h2,
    isDigitCh_digitChar _ h3, isDigitCh_digitChar _ h4,
    isDigitCh_digitChar _ h5, isDigitCh_digitChar _ h6,
    isDigitCh_digitChar _ h7, isDigitCh_digitChar _ h8]

/-- The dashed rendering of a bounded date is a strict `YYYY-MM-DD`
token. -/
theorem fmtDashed_shape (y m d : Nat) (hy : y ≤ 9999) (hm : m ≤ 99)
    (hd : d ≤ 99) : isDashedTokenShape (fmtDashed ⟨y, m, d⟩) = true := by
  have h1 : y / 1000 < 10 := by omega
  have h2 : y / 100 % 10 < 10 := by omega
  have h3 : y / 10 % 10 < 10 := by omega
  have h4 : y % 10 < 10 := by omega
  have h5 : m / 10 < 10 := by omega
  have h6 : m % 10 < 10 := by omega
  have h7 : d / 10 < 10 := by omega
  have h8 : d % 10 < 10 := by omega
  unfold isDashedTokenShape fmtDashed
  rw [string_data_mk]
  simp [pad4, pad2, List.cons_append, isDigitCh_digitChar _ h1,
    isDigitCh_digitChar _ h2, isDigitCh_digitChar _ h3,
    isDigitCh_digitChar _ h4, isDigitCh_digitChar _ h5,
    isDigitCh_digitChar _ h6, isDigitCh_digitChar _ h7,
    isDigitCh_digitChar _ h8]

/-- Claim C5, counterexample: `parse_date` accepts `"2024-1-1"`, a string
in neither the strict `YYYYMMDD` shape nor the strict `YYYY-MM-DD` shape,
instead of raising `ValueError` — Python's `%m`/`%d` directives match one
or two digits. -/
theorem C5_counterexample :
    parse_date "2024-1-1" = some ⟨2024, 1, 1⟩ ∧
    isYmdTokenShape "2024-1-1" = false ∧
    isDashedTokenShape "2024-1-1" = false := by
  decide

/-- Claim C5 (amended): `parse_date` accepts every valid `YYYYMMDD` and
`YYYY-MM-DD` token (and, because Python's `%m`/`%d` also match single
digits, some unpadded variants, cf. the counterexample); formatting with
`%Y%m%d` normalizes every accepted string to a strict `YYYYMMDD` token of a
valid date that parses back to the same date, and on valid `YYYYMMDD`
inputs parse-then-format is the identity. -/
theorem C5_parse_date_normalization (y m d : Nat) (s : String)
    (dt : SimpleDate) (hv : validDate y m d = true)
    (hs : parse_date s = some dt) :
    parse_date (fmtYmd ⟨y, m, d⟩) = some ⟨y, m, d⟩ ∧
    isYmdTokenShape (fmtYmd ⟨y, m, d⟩) = true ∧
    parse_date (fmtDashed ⟨y, m, d⟩) = some ⟨y, m, d⟩ ∧
    isDashedTokenShape (fmtDashed ⟨y, m, d⟩) = true ∧
    (parse_date (fmtYmd ⟨y, m, d⟩)).map fmtYmd = some (fmtYmd ⟨y, m, d⟩) ∧
    validDate dt.y dt.m dt.d = true ∧
    isYmdTokenShape (fmtYmd dt) = true ∧
    parse_date (fmtYmd dt) = some dt := by
  obtain ⟨dy, dm, dd⟩ := dt
  have hvdt : validDate dy dm dd = true :=
    parse_date_valid s ⟨dy, dm, dd⟩ hs
  have hv1 := hv
  simp [validDate] at hv1
  have hy : y ≤ 9999 := by omega
  have hm99 : m ≤ 99 := by omega
  have hd99 : d ≤ 99 := by
    have := daysInMonth_le y m
    omega
  have hvdt1 := hvdt
  simp [validDate] at hvdt1
  have hdy : dy ≤ 9999 := by omega
  have hdm99 : dm ≤ 99 := by omega
  have hdd99 : dd ≤ 99 := by
    have := daysInMonth_le dy dm
    omega
  refine ⟨parse_date_fmtYmd y m d hv, fmtYmd_shape y m d hy hm99 hd99,
    parse_date_fmtDashed y m d hv, fmtDashed_shape y m d hy hm99 hd99, ?_,
    hvdt, fmtYmd_shape dy dm dd hdy hdm99 hdd99,
    parse_date_fmtYmd dy dm dd hvdt⟩
  rw [parse_date_fmtYmd y m d hv]
  rfl

/-- Claim C5 witness: the valid date 2024-06-10 and the accepted string
`"2024-1-1"` instantiate the amended normalization statement. -/
theorem C5_parse_date_normalization_witness :
    parse_date (fmtYmd ⟨2024, 6, 10⟩) = some ⟨2024, 6, 10⟩ ∧
    isYmdTokenShape (fmtYmd ⟨2024, 6, 10⟩) = true ∧
    parse_date (fmtDashed ⟨2024, 6, 10⟩) = some ⟨2024, 6, 10⟩ ∧
    isDashedTokenShape (fmtDashed ⟨2024, 6, 10⟩) = true ∧
    (parse_date (fmtYmd ⟨2024, 6, 10⟩)).map fmtYmd =
      some (fmtYmd ⟨2024, 6, 10⟩) ∧
    validDate (⟨2024, 1, 1⟩ : SimpleDate).y (⟨2024, 1, 1⟩ : SimpleDate).m
      (⟨2024, 1, 1⟩ : SimpleDate).d = true ∧
    isYmdTokenShape (fmtYmd ⟨2024, 1, 1⟩) = true ∧
    parse_date (fmtYmd ⟨2024, 1, 1⟩) = some ⟨2024, 1, 1⟩ :=
  C5_parse_date_normalization 2024 6 10 "2024-1-1" ⟨2024, 1, 1⟩ (by decide)
    (by decide)
